import Mathlib

/-!
Verification development for the pystages repository: a shallow embedding of
the vector data type, the shared Stage validation logic, and the pure
framing/parsing cores of the per-device protocol drivers (CNC/GRBL, SMC100,
M3-FS, Corvus, PI, Tic), together with theorems settling the specification
claims about them.

Python floats/ints are modelled as exact rationals (ℚ); serial byte streams
are modelled as lists of the lines (or characters) that successive reads
would return.
-/

namespace PyStages

/-! ## Vector (src/pystages/vector.py)

`Vector` wraps a list of numeric components.  Operations that can raise in
Python are modelled with `Except`:
  * `ValueError("Incorrect vector size")` → `VecError.dimensionMismatch`
  * `TypeError("Incorrect type for second operand...")` → `VecError.typeError`
  * `ZeroDivisionError` (from `1.0 / other` with `other == 0`) → `VecError.zeroDivision`
-/

structure Vector where
  data : List ℚ
deriving DecidableEq, Repr

inductive VecError where
  | dimensionMismatch
  | typeError
  | zeroDivision
deriving DecidableEq, Repr

/-- `len(v)` -/
def Vector.len (v : Vector) : Nat := v.data.length

/-- `Vector(dim=n)`: zero-padded construction with no explicit values. -/
def Vector.ofDim (n : Nat) : Vector := ⟨List.replicate n 0⟩

/-- `Vector.__add__`: checks `len(other) != dim` then adds componentwise. -/
def Vector.add (a b : Vector) : Except VecError Vector :=
  if b.len ≠ a.len then .error .dimensionMismatch
  else .ok ⟨List.zipWith (fun x y => x + y) a.data b.data⟩

/-- `Vector.__sub__`: checks `len(other) != dim` then subtracts componentwise. -/
def Vector.sub (a b : Vector) : Except VecError Vector :=
  if b.len ≠ a.len then .error .dimensionMismatch
  else .ok ⟨List.zipWith (fun x y => x - y) a.data b.data⟩

/-- Scalar branch of `Vector.__mul__`: `result[i] = self[i] * other`. -/
def Vector.mulScalar (a : Vector) (s : ℚ) : Vector := ⟨a.data.map (fun x => x * s)⟩

/-- The second operand of `Vector.__mul__` / `Vector.__truediv__` is either a
scalar (`int`/`float`) or another `Vector`. -/
inductive Operand where
  | scalar (s : ℚ)
  | vec (v : Vector)
deriving DecidableEq, Repr

/-- `Vector.__mul__`: scalar multiplication, or componentwise multiplication
after the `len(other) != dim` check. -/
def Vector.mul (a : Vector) : Operand → Except VecError Vector
  | .scalar s => .ok (a.mulScalar s)
  | .vec b =>
      if b.len ≠ a.len then .error .dimensionMismatch
      else .ok ⟨List.zipWith (fun x y => x * y) a.data b.data⟩

/-- `Vector.__truediv__`: only `int`/`float` second operands are accepted
(`self * (1.0 / other)`); any `Vector` operand raises `TypeError` regardless
of its length. -/
def Vector.truediv (a : Vector) : Operand → Except VecError Vector
  | .scalar s => if s = 0 then .error .zeroDivision else .ok (a.mulScalar (1 / s))
  | .vec _ => .error .typeError

/-! ## Stage validation (src/pystages/stage.py)

The abstract `Stage.position` setter runs `check_dimension` then
`check_range`; each concrete driver's setter first calls this inherited
setter and only afterwards writes its move command(s) to the transport.
The driver-specific command encoding is abstracted as an `encode` function;
an `Except.error` result means the exception was raised before any byte was
written. `ValueError` messages are distinguished by their cause. -/

inductive StageError where
  | dimensionMismatch (got expected : Nat)
  | boundsDimension
  | outOfRange (i : Nat)
deriving DecidableEq, Repr

structure StageCfg where
  num_axis : Nat
  minimums : Option Vector
  maximums : Option Vector
deriving DecidableEq, Repr

/-- `Stage.check_dimension` -/
def check_dimension (cfg : StageCfg) (v : Vector) : Except StageError Unit :=
  if cfg.num_axis ≠ v.len then .error (.dimensionMismatch v.len cfg.num_axis)
  else .ok ()

/-- The `for i in range(len(value))` loop of `Stage.check_range`: the first
index whose component is below its minimum or above its maximum raises. -/
def rangeLoop (i : Nat) : List ℚ → List ℚ → List ℚ → Except StageError Unit
  | [], _, _ => .ok ()
  | _ :: _, [], _ => .ok ()
  | _ :: _, _ :: _, [] => .ok ()
  | x :: xs, m :: ms, M :: Ms =>
      if x < m then .error (.outOfRange i)
      else if M < x then .error (.outOfRange i)
      else rangeLoop (i + 1) xs ms Ms

/-- `Stage.check_range`: no check when both bounds are unset; a `None` bound
is replaced by the value itself; bound vectors of the wrong length raise;
otherwise the per-index loop runs. -/
def check_range (cfg : StageCfg) (v : Vector) : Except StageError Unit :=
  if cfg.minimums.isNone && cfg.maximums.isNone then .ok ()
  else
    let mins := cfg.minimums.getD v
    let maxs := cfg.maximums.getD v
    if mins.len ≠ v.len ∨ maxs.len ≠ v.len then .error .boundsDimension
    else rangeLoop 0 v.data mins.data maxs.data

/-- A concrete driver's `position` setter: run the inherited validation
(`Stage.position.fset`), then emit the protocol-specific move command(s).
`encode` stands for the driver's command construction and transport write. -/
def stageSetPosition (cfg : StageCfg) (encode : Vector → List String) (v : Vector) :
    Except StageError (List String) :=
  match check_dimension cfg v with
  | .error e => .error e
  | .ok _ =>
      match check_range cfg v with
      | .error e => .error e
      | .ok _ => .ok (encode v)

/-- `Stage.move_to` sets `self.position` (the optional wait only polls
`is_moving`; it issues no motion command). -/
def move_to (cfg : StageCfg) (encode : Vector → List String) (v : Vector) :
    Except StageError (List String) :=
  stageSetPosition cfg encode v

/-- Base-class `Stage.home`: `move_to(Vector(dim=self.num_axis), wait=wait)`. -/
def Stage.home (cfg : StageCfg) (encode : Vector → List String) :
    Except StageError (List String) :=
  move_to cfg encode (Vector.ofDim cfg.num_axis)

/-! ## CNC/GRBL driver (src/pystages/cncrouter.py)

The status line returned for `?` is parsed by `get_current_status`.  The
serial stream is modelled as the list of lines successive `receive()` calls
would return; an exhausted stream behaves like `receive`'s timeout path and
yields the empty string. -/

inductive CNCStatus where
  | IDLE
  | RUN
  | HOLD
  | DOOR
  | HOME
  | ALARM
  | CHECK
deriving DecidableEq, Repr

/-! Python string primitives, modelled on the character list of the string so
that every definition is structurally recursive and kernel-evaluable. -/

/-- Python `s.split(sep)` for a single-character separator. -/
def splitChars (sep : Char) : List Char → List (List Char)
  | [] => [[]]
  | c :: rest =>
      let r := splitChars sep rest
      if c = sep then [] :: r
      else
        match r with
        | [] => [[c]]
        | g :: gs => (c :: g) :: gs

/-- Python `s.split(sep, 1)`: `none` when the separator does not occur,
otherwise the parts before and after its first occurrence. -/
def splitFirst (sep : Char) : List Char → Option (List Char × List Char)
  | [] => none
  | c :: rest =>
      if c = sep then some ([], rest)
      else (splitFirst sep rest).map (fun p => (c :: p.1, p.2))

/-- Python `s.startswith(p)`. -/
def strStartsWith (s p : String) : Bool := p.data.isPrefixOf s.data

/-- Python `s.endswith(p)`. -/
def strEndsWith (s p : String) : Bool := p.data.reverse.isPrefixOf s.data.reverse

/-- `CNCStatus(s)`: enum lookup by wire value; unknown values raise `ValueError`. -/
def CNCStatus.ofWire (s : String) : Option CNCStatus :=
  if s = "Idle" then some .IDLE
  else if s = "Run" then some .RUN
  else if s = "Hold" then some .HOLD
  else if s = "Door" then some .DOOR
  else if s = "Home" then some .HOME
  else if s = "Alarm" then some .ALARM
  else if s = "Check" then some .CHECK
  else none

/-- `CNCError(message, cncstatus)` (an exception distinct from `ProtocolError`). -/
structure CNCError where
  message : String
  cncstatus : CNCStatus
deriving DecidableEq, Repr

/-- A field value of the status report: `None` when the element has no `:`,
the raw string when it has no comma, the comma-split list otherwise. -/
inductive FieldValue where
  | absent
  | str (s : String)
  | list (l : List String)
deriving DecidableEq, Repr

/-- One `element.split(":", 1)` key/value pair of the status report; a value
containing a comma is split into a list. -/
def parseKV (element : String) : String × FieldValue :=
  match splitFirst ':' element.data with
  | none => (element, .absent)
  | some (k, v) =>
      (String.mk k,
        if v.contains ',' then .list ((splitChars ',' v).map String.mk)
        else .str (String.mk v))

/-- Outcome of `CNCRouter.get_current_status`. -/
inductive StatusOutcome where
  | failed
  | invalidStatus (s : String)
  | alarm (e : CNCError)
  | ok (st : CNCStatus) (fields : List (String × FieldValue))
deriving DecidableEq, Repr

/-- One `receive()` on the modelled line stream (empty string on timeout). -/
def recv : List String → String × List String
  | [] => ("", [])
  | l :: rest => (l, rest)

/-- The tail of `get_current_status` after the `ok`-skipping loop: alarm
check, `<...>` format check, pipe split, status lookup, field parsing. -/
def parseStatusLine (status : String) (rest : List String) : StatusOutcome :=
  if strStartsWith status "ALARM:1" then .alarm ⟨(recv rest).1, CNCStatus.ALARM⟩
  else if ¬(strStartsWith status "<" ∧ strEndsWith status ">") then .failed
  else
    match splitChars '|' (status.data.drop 1).dropLast with
    | [] => .failed
    | st :: others =>
        match CNCStatus.ofWire (String.mk st) with
        | none => .invalidStatus (String.mk st)
        | some c => .ok c ((others.map String.mk).map parseKV)

/-- The `while status == "ok"` loop of `get_current_status`. -/
def skipOk (status : String) (rest : List String) : StatusOutcome :=
  if status = "ok" then
    match rest with
    | [] => parseStatusLine "" []
    | l :: r => skipOk l r
  else parseStatusLine status rest

/-- `CNCRouter.get_current_status` over the modelled line stream: receive a
line, retry once on an empty read, skip stray `ok` lines, then parse. -/
def get_current_status (lines : List String) : StatusOutcome :=
  let p := recv lines
  let q := if p.1 = "" then recv p.2 else p
  skipOk q.1 q.2

/-- Digit-string value, `none` unless the string is nonempty and all digits. -/
def digitsVal (ds : List Char) : Option Nat :=
  if ds.length > 0 && ds.all Char.isDigit then
    some (ds.foldl (fun a c => a * 10 + (c.toNat - 48)) 0)
  else none

/-- Python `float(s)` on plain decimal strings such as `"1.000"` or `"-0.5"`
(exact rational value; exponent forms are not needed by the driver). -/
def parseFloat (s : String) : Option ℚ :=
  let cs := s.data
  let sgn : ℚ := if cs.head? = some '-' then -1 else 1
  let t := if cs.head? = some '-' ∨ cs.head? = some '+' then cs.drop 1 else cs
  match splitChars '.' t with
  | [ip] => (digitsVal ip).map (fun n => sgn * n)
  | [ip, fp] =>
      if ip.isEmpty && fp.isEmpty then none
      else
        match (if ip.isEmpty then some 0 else digitsVal ip),
              (if fp.isEmpty then some 0 else digitsVal fp) with
        | some a, some b => some (sgn * ((a : ℚ) + (b : ℚ) / ((10 : ℚ) ^ fp.length)))
        | _, _ => none
  | _ => none

/-- `extra_dict[key]` lookup on the parsed field list. -/
def lookupField (fields : List (String × FieldValue)) (k : String) : Option FieldValue :=
  (fields.find? (fun p => decide (p.fst = k))).map (fun p => p.snd)

/-- `tuple(float(x) for x in value)`: iterate the field value.  A comma list
iterates its entries; a plain string iterates its characters (Python `str`
iteration); `None` is not iterable. -/
def floatsOf : FieldValue → Option (List ℚ)
  | .list l => l.mapM parseFloat
  | .str s => s.data.mapM (fun c => parseFloat (String.mk [c]))
  | .absent => none

/-- The computation of the `CNCRouter.position` getter once a status report
carrying `WCO` has been obtained: `MPos - WCO` via `Vector.__sub__`.
`none` models the getter never returning (no `WCO`) or a `KeyError`. -/
def CNCRouter.position (fields : List (String × FieldValue)) :
    Option (Except VecError Vector) := do
  let wcoF ← lookupField fields "WCO"
  let mposF ← lookupField fields "MPos"
  let mp ← floatsOf mposF
  let wc ← floatsOf wcoF
  pure (Vector.sub ⟨mp⟩ ⟨wc⟩)

/-- `CNCRouter.is_moving` as a function of the status obtained from
`get_current_status`: `status[0] in [CNCStatus.RUN, CNCStatus.HOME]`. -/
def CNCRouter.is_moving (st : CNCStatus) : Bool :=
  st = CNCStatus.RUN ∨ st = CNCStatus.HOME

/-! ## Newport SMC100 driver (src/pystages/smc100.py)

`Link` frames commands as `{address}{command}\r\n` and validates responses by
stripping the echoed `{address}{command}` prefix.  The serial input is
modelled as the list of response lines successive `receive()` calls would
deliver; an exhausted stream means `receive` blocks forever. -/

/-- `Link.response`: strip the echoed `{address}{command}` prefix, else raise
`ProtocolError(query_string, res)`. -/
def Link.response (address : Option Nat) (command : String) (res : Option String) :
    Except (String × Option String) String :=
  let qs := (match address with | none => "" | some a => toString a) ++ command
  match res with
  | none => .error (qs, none)
  | some r =>
      if (r.data.take qs.data.length) ≠ qs.data then .error (qs, some r)
      else .ok (String.mk (r.data.drop qs.data.length))

/-- Result of `Link.query` as observed by its caller. -/
inductive QueryOutcome where
  | ok (payload : String)
  | protocolError (q : String) (r : Option String)
  | blocked
deriving DecidableEq, Repr

/-- `Link.query` (non-lazy): send `{address}{command}?`, read a response and
validate it with `Link.response`; on `ProtocolError` the query is re-sent and
the whole procedure repeats on the next response.  Each list element is the
response consumed by one attempt; an empty stream blocks. -/
def Link.query (address : Option Nat) (command : String) : List String → QueryOutcome
  | [] => .blocked
  | r :: rest =>
      match Link.response address command (some r) with
      | .ok p => .ok p
      | .error _ => Link.query address command rest

/-- `State(int, Enum)` of the SMC100 controller. -/
inductive State where
  | NOT_REFERENCED_FROM_RESET
  | NOT_REFERENCED_FROM_HOMING
  | NOT_REFERENCED_FROM_CONFIGURATION
  | NOT_REFERENCED_FROM_DISABLE
  | NOT_REFERENCED_FROM_READY
  | NOT_REFERENCED_FROM_MOVING
  | NOT_REFERENCED_STAGE_ERROR
  | NOT_REFERENCED_FROM_JOGGING
  | CONFIGURATION
  | HOMING_RS232
  | HOMING_SMCRC
  | MOVING
  | READY_FROM_HOMING
  | READY_FROM_MOVING
  | READY_FROM_DISABLE
  | READY_FROM_JOGGING
  | DISABLE_FROM_READY
  | DISABLE_FROM_MOVING
  | DISABLE_FROM_JOGGING
  | JOGGING_FROM_READY
  | JOGGING_FROM_DISABLE
deriving DecidableEq, Repr

/-- Wire value of each `State` member. -/
def State.toNat : State → Nat
  | .NOT_REFERENCED_FROM_RESET => 0x0A
  | .NOT_REFERENCED_FROM_HOMING => 0x0B
  | .NOT_REFERENCED_FROM_CONFIGURATION => 0x0C
  | .NOT_REFERENCED_FROM_DISABLE => 0x0D
  | .NOT_REFERENCED_FROM_READY => 0x0E
  | .NOT_REFERENCED_FROM_MOVING => 0x0F
  | .NOT_REFERENCED_STAGE_ERROR => 0x10
  | .NOT_REFERENCED_FROM_JOGGING => 0x11
  | .CONFIGURATION => 0x14
  | .HOMING_RS232 => 0x1E
  | .HOMING_SMCRC => 0x1F
  | .MOVING => 0x28
  | .READY_FROM_HOMING => 0x32
  | .READY_FROM_MOVING => 0x33
  | .READY_FROM_DISABLE => 0x34
  | .READY_FROM_JOGGING => 0x35
  | .DISABLE_FROM_READY => 0x3C
  | .DISABLE_FROM_MOVING => 0x3D
  | .DISABLE_FROM_JOGGING => 0x3E
  | .JOGGING_FROM_READY => 0x46
  | .JOGGING_FROM_DISABLE => 0x47

/-- `State(n)`: enum lookup by wire value (`ValueError` on unknown values). -/
def State.fromWire (n : Nat) : Option State :=
  match n with
  | 0x0A => some .NOT_REFERENCED_FROM_RESET
  | 0x0B => some .NOT_REFERENCED_FROM_HOMING
  | 0x0C => some .NOT_REFERENCED_FROM_CONFIGURATION
  | 0x0D => some .NOT_REFERENCED_FROM_DISABLE
  | 0x0E => some .NOT_REFERENCED_FROM_READY
  | 0x0F => some .NOT_REFERENCED_FROM_MOVING
  | 0x10 => some .NOT_REFERENCED_STAGE_ERROR
  | 0x11 => some .NOT_REFERENCED_FROM_JOGGING
  | 0x14 => some .CONFIGURATION
  | 0x1E => some .HOMING_RS232
  | 0x1F => some .HOMING_SMCRC
  | 0x28 => some .MOVING
  | 0x32 => some .READY_FROM_HOMING
  | 0x33 => some .READY_FROM_MOVING
  | 0x34 => some .READY_FROM_DISABLE
  | 0x35 => some .READY_FROM_JOGGING
  | 0x3C => some .DISABLE_FROM_READY
  | 0x3D => some .DISABLE_FROM_MOVING
  | 0x3E => some .DISABLE_FROM_JOGGING
  | 0x46 => some .JOGGING_FROM_READY
  | 0x47 => some .JOGGING_FROM_DISABLE
  | _ => none

/-- `ErrorAndState`: the positioner error bitmask (`Error` is an `int Flag`
over bits 0..9, kept as the raw bitmask here; `0` is `NO_ERROR`) and the
controller state. -/
structure ErrorAndState where
  error : Nat
  state : State
deriving DecidableEq, Repr

/-- `is_referenced`: state not in the `NOT_REFERENCED_x` range. -/
def ErrorAndState.is_referenced (e : ErrorAndState) : Bool :=
  ¬(0x0A ≤ e.state.toNat ∧ e.state.toNat ≤ 0x11)

/-- `is_ready`: state in the `READY_x` range. -/
def ErrorAndState.is_ready (e : ErrorAndState) : Bool :=
  0x32 ≤ e.state.toNat ∧ e.state.toNat ≤ 0x35

/-- `is_moving`: state equals `MOVING`. -/
def ErrorAndState.is_moving (e : ErrorAndState) : Bool :=
  e.state = State.MOVING

/-- `is_homing`: state in the `HOMING_x` range. -/
def ErrorAndState.is_homing (e : ErrorAndState) : Bool :=
  0x1E ≤ e.state.toNat ∧ e.state.toNat ≤ 0x1F

/-- `is_jogging`: state in the `JOGGING_x` range. -/
def ErrorAndState.is_jogging (e : ErrorAndState) : Bool :=
  0x46 ≤ e.state.toNat ∧ e.state.toNat ≤ 0x47

/-- `is_disabled`: state in the `DISABLE_x` range. -/
def ErrorAndState.is_disabled (e : ErrorAndState) : Bool :=
  0x3C ≤ e.state.toNat ∧ e.state.toNat ≤ 0x3E

/-- Hex digit value (`int(s, 16)` accepts both cases). -/
def hexDigitVal (c : Char) : Option Nat :=
  if c.isDigit then some (c.toNat - 48)
  else if 97 ≤ c.toNat ∧ c.toNat ≤ 102 then some (c.toNat - 87)
  else if 65 ≤ c.toNat ∧ c.toNat ≤ 70 then some (c.toNat - 55)
  else none

/-- `int(s, 16)` on a plain hex-digit string. -/
def parseHex (s : String) : Option Nat :=
  if s.data.isEmpty then none
  else (s.data.mapM hexDigitVal).map (List.foldl (fun a d => a * 16 + d) 0)

/-- Outcome of `SMC100.get_error_and_state` for a given `TS` response. -/
inductive TSResult where
  | protocolError (cmd : String) (res : Option String)
  | valueError
  | ok (e : ErrorAndState)
deriving DecidableEq, Repr

/-- `SMC100.get_error_and_state`, as a function of the (already
prefix-stripped) response payload of the `TS` query: `None` or a length other
than 6 raises `ProtocolError("TS", res)`; the first 4 hex digits give the
error bitmask (`Error(...)`, valid below `1 << 10`), the last 2 the state
enum (`State(...)`). -/
def get_error_and_state (res : Option String) : TSResult :=
  match res with
  | none => .protocolError "TS" none
  | some r =>
      if r.data.length ≠ 6 then .protocolError "TS" (some r)
      else
        match parseHex (String.mk (r.data.take 4)), parseHex (String.mk (r.data.drop 4)) with
        | some e, some s =>
            if e < 1024 then
              match State.fromWire s with
              | some st => .ok ⟨e, st⟩
              | none => .valueError
            else .valueError
        | _, _ => .valueError

/-- `SMC100.is_moving`: true when any axis reports moving, homing or jogging
(as a function of the states returned by `get_error_and_state` per address). -/
def SMC100.is_moving (states : List ErrorAndState) : Bool :=
  states.any (fun s => s.is_moving || s.is_homing || s.is_jogging)

/-! ## M3-FS driver (src/pystages/m3fs.py)

`M3FS.__receive` reads single bytes from the serial port: a leading `<`, the
payload up to `>` (a stray CR inside is a framing violation), then a
mandatory trailing CR.  The input is modelled as the list of characters the
successive 1-byte reads would return (an exhausted list models a read that
returned no byte). -/

/-- `ProtocolError` variants raised by the M3-FS driver: bare framing
errors from `__receive`, and mismatch errors from `command` naming the sent
command and the raw response. -/
inductive M3Result where
  | framingError
  | protocolError (cmd : Nat) (res : String)
  | valueError
  | ok (data : Option String)
deriving DecidableEq, Repr

/-- The `while True` byte loop of `M3FS.__receive`: collect payload bytes
until `>`. -/
def readPayload : List Char → Except Unit (List Char × List Char)
  | [] => .error ()
  | c :: rest =>
      if c = '>' then .ok ([], rest)
      else if c = '\r' then .error ()
      else (readPayload rest).map (fun p => (c :: p.1, p.2))

/-- `M3FS.__receive`: leading `<`, payload until `>`, mandatory trailing CR. -/
def M3FS.receive (input : List Char) : Except Unit String :=
  match input with
  | [] => .error ()
  | c :: rest =>
      if c ≠ '<' then .error ()
      else
        match readPayload rest with
        | .error _ => .error ()
        | .ok (payload, remaining) =>
            match remaining with
            | [] => .error ()
            | c2 :: _ => if c2 ≠ '\r' then .error () else .ok (String.mk payload)

/-- `M3FS.command`: receive a response, require its leading two digits to
equal the sent command ID, then return the data after the mandatory space
(`None` for a bare 2-character response). -/
def M3FS.command (cmd : Nat) (input : List Char) : M3Result :=
  match M3FS.receive input with
  | .error _ => .framingError
  | .ok res =>
      if res.data.length < 2 then .protocolError cmd res
      else
        match digitsVal (res.data.take 2) with
        | none => .valueError
        | some n =>
            if n ≠ cmd then .protocolError cmd res
            else if res.data.length = 2 then .ok none
            else if res.data.get? 2 ≠ some ' ' then .protocolError cmd res
            else .ok (some (String.mk (res.data.drop 3)))

/-- `M3FS.is_moving`: bit 2 of the closed-loop motor status word. -/
def M3FS.is_moving (motor_status : Nat) : Bool :=
  motor_status &&& 4 ≠ 0

/-! ## Remaining drivers: `is_moving` queries (corvus.py, pi.py, tic.py) -/

/-- `Corvus.is_moving`: `bool(int(self.send_receive("st")) & 1)` as a function
of the integer status word the `st` query returned. -/
def Corvus.is_moving (st : Nat) : Bool :=
  st &&& 1 ≠ 0

/-- `PI.is_moving`: issues the `\x05` query per address and returns true when
any axis payload differs from `"0"`; modelled over the per-axis payloads. -/
def PI.is_moving (payloads : List String) : Bool :=
  payloads.any (fun p => p ≠ "0")

/-- `Tic.is_moving`: the source returns `False` in all cases without querying
the device; the ignored argument stands for the device state (for instance
its `MISC_FLAGS` variable) a query would have observed. -/
def Tic.is_moving (_deviceFlags : Nat) : Bool :=
  false

/-! ### Helper lemmas about `check_range` -/

theorem rangeLoop_shape (xs ms Ms : List ℚ) (i : Nat) :
    rangeLoop i xs ms Ms = .ok () ∨ ∃ j, rangeLoop i xs ms Ms = .error (.outOfRange j) := by
  induction xs generalizing ms Ms i with
  | nil => left; rfl
  | cons x xs ih =>
      cases ms with
      | nil => left; rfl
      | cons m ms =>
          cases Ms with
          | nil => left; rfl
          | cons M Ms =>
              by_cases h1 : x < m
              · right; exact ⟨i, by simp [rangeLoop, h1]⟩
              · by_cases h2 : M < x
                · right; exact ⟨i, by simp [rangeLoop, h1, h2]⟩
                · rw [rangeLoop, if_neg h1, if_neg h2]
                  exact ih ms Ms (i + 1)

theorem rangeLoop_ok_bounds (xs ms Ms : List ℚ) (i : Nat)
    (h : rangeLoop i xs ms Ms = .ok ()) :
    ∀ j, j < xs.length → j < ms.length → j < Ms.length →
      ms.getD j 0 ≤ xs.getD j 0 ∧ xs.getD j 0 ≤ Ms.getD j 0 := by
  induction xs generalizing ms Ms i with
  | nil => intro j hj; simp at hj
  | cons x xs ih =>
      intro j hj hm hM
      cases ms with
      | nil => simp at hm
      | cons m ms =>
          cases Ms with
          | nil => simp at hM
          | cons M Ms =>
              by_cases h1 : x < m
              · simp [rangeLoop, h1] at h
              · by_cases h2 : M < x
                · simp [rangeLoop, h1, h2] at h
                · rw [rangeLoop, if_neg h1, if_neg h2] at h
                  cases j with
                  | zero =>
                      simp only [List.getD_cons_zero]
                      exact ⟨not_lt.mp h1, not_lt.mp h2⟩
                  | succ j =>
                      simp only [List.getD_cons_succ]
                      simp only [List.length_cons] at hj hm hM
                      exact ih ms Ms (i + 1) h j (by omega) (by omega) (by omega)

theorem check_range_violation (cfg : StageCfg) (v : Vector)
    (hmin : (cfg.minimums.getD v).len = v.len)
    (hmax : (cfg.maximums.getD v).len = v.len)
    (hsome : cfg.minimums.isSome ∨ cfg.maximums.isSome)
    (i : Nat) (hi : i < v.len)
    (hviol : v.data.getD i 0 < (cfg.minimums.getD v).data.getD i 0 ∨
             (cfg.maximums.getD v).data.getD i 0 < v.data.getD i 0) :
    ∃ j, check_range cfg v = .error (.outOfRange j) := by
  have hnotboth : ¬(cfg.minimums.isNone && cfg.maximums.isNone) = true := by
    rcases hsome with h | h <;> cases hmins : cfg.minimums <;> cases hmaxs : cfg.maximums <;>
      simp_all [Option.isSome, Option.isNone]
  simp only [Vector.len] at hmin hmax hi
  have hlen : ¬((cfg.minimums.getD v).len ≠ v.len ∨ (cfg.maximums.getD v).len ≠ v.len) := by
    simp only [Vector.len]
    omega
  rw [check_range, if_neg hnotboth, if_neg hlen]
  rcases rangeLoop_shape v.data (cfg.minimums.getD v).data (cfg.maximums.getD v).data 0 with
    hok | ⟨j, hj⟩
  · exfalso
    have := rangeLoop_ok_bounds _ _ _ _ hok i hi (by omega) (by omega)
    rcases hviol with h | h
    · exact absurd this.1 (not_le.mpr h)
    · exact absurd this.2 (not_le.mpr h)
  · exact ⟨j, hj⟩

theorem stageSetPosition_range_error (cfg : StageCfg) (encode : Vector → List String)
    (v : Vector) (e : StageError) (hdim : check_dimension cfg v = .ok ())
    (hrange : check_range cfg v = .error e) :
    stageSetPosition cfg encode v = .error e := by
  simp [stageSetPosition, hdim, hrange]

theorem check_dimension_ok (cfg : StageCfg) (v : Vector) (h : cfg.num_axis = v.len) :
    check_dimension cfg v = .ok () := by
  simp [check_dimension, h]

theorem replicate_zero_getD : ∀ (n i : Nat), (List.replicate n (0 : ℚ)).getD i 0 = 0
  | 0, _ => by simp
  | _ + 1, 0 => by simp
  | n + 1, i + 1 => by
      rw [List.replicate, List.getD_cons_succ]
      exact replicate_zero_getD n i

theorem zipWith_add_sub (xs ys : List ℚ) (h : xs.length = ys.length) :
    List.zipWith (fun x y => x - y) (List.zipWith (fun x y => x + y) xs ys) ys = xs := by
  induction xs generalizing ys with
  | nil => cases ys <;> simp
  | cons x xs ih =>
      cases ys with
      | nil => simp at h
      | cons y ys =>
          simp only [List.length_cons] at h
          simp [List.zipWith, ih ys (by omega)]

theorem readPayload_clean (p rest : List Char) (hp : ∀ c ∈ p, c ≠ '>' ∧ c ≠ '\r') :
    readPayload (p ++ '>' :: rest) = .ok (p, rest) := by
  induction p with
  | nil => simp [readPayload]
  | cons c p ih =>
      have hc := hp c (by simp)
      simp [readPayload, hc.1, hc.2, Except.map, ih (fun x hx => hp x (by simp [hx]))]

/-! ## Claim theorems -/

/-- Claim C1: for every Stage driver (any command encoding), setting the
position property raises a dimension-mismatch error whenever the vector's
length differs from `num_axis`, and an out-of-range error whenever some
component violates a set minimum or maximum bound; in both cases the setter
returns the error before any move command is produced for the transport. -/
theorem stage_position_validates (cfg : StageCfg) (encode : Vector → List String)
    (v : Vector) :
    (cfg.num_axis ≠ v.len →
      stageSetPosition cfg encode v = .error (.dimensionMismatch v.len cfg.num_axis)) ∧
    (∀ (M : Vector) (i : Nat), cfg.num_axis = v.len → cfg.maximums = some M →
      (cfg.minimums.getD v).len = v.len → M.len = v.len → i < v.len →
      M.data.getD i 0 < v.data.getD i 0 →
      ∃ j, stageSetPosition cfg encode v = .error (.outOfRange j)) ∧
    (∀ (m : Vector) (i : Nat), cfg.num_axis = v.len → cfg.minimums = some m →
      (cfg.maximums.getD v).len = v.len → m.len = v.len → i < v.len →
      v.data.getD i 0 < m.data.getD i 0 →
      ∃ j, stageSetPosition cfg encode v = .error (.outOfRange j)) := by
  refine ⟨?_, ?_, ?_⟩
  · intro h
    simp [stageSetPosition, check_dimension, h]
  · intro M i hdim hmaxsome hminlen hMlen hi hviol
    obtain ⟨j, hj⟩ := check_range_violation cfg v hminlen (by rw [hmaxsome]; exact hMlen)
      (Or.inr (by rw [hmaxsome]; rfl)) i hi (Or.inr (by rw [hmaxsome]; exact hviol))
    exact ⟨j, stageSetPosition_range_error cfg encode v _ (check_dimension_ok cfg v hdim) hj⟩
  · intro m i hdim hminsome hmaxlen hmlen hi hviol
    obtain ⟨j, hj⟩ := check_range_violation cfg v (by rw [hminsome]; exact hmlen) hmaxlen
      (Or.inl (by rw [hminsome]; rfl)) i hi (Or.inl (by rw [hminsome]; exact hviol))
    exact ⟨j, stageSetPosition_range_error cfg encode v _ (check_dimension_ok cfg v hdim) hj⟩

/-- Witness for C1: with `num_axis = 2` and maximums `(1, 1)`, setting
`(2, 0)` is rejected as out of range, and setting the 1-dimensional `(2)` is
rejected as a dimension mismatch; neither produces commands. -/
theorem stage_position_validates_witness :
    (∃ j, stageSetPosition ⟨2, none, some ⟨[1, 1]⟩⟩ (fun _ => ["G0 X2 Y0"]) ⟨[2, 0]⟩ =
      .error (.outOfRange j)) ∧
    stageSetPosition ⟨2, none, some ⟨[1, 1]⟩⟩ (fun _ => ["G0 X2 Y0"]) ⟨[2]⟩ =
      .error (.dimensionMismatch 1 2) :=
  ⟨(stage_position_validates ⟨2, none, some ⟨[1, 1]⟩⟩ _ ⟨[2, 0]⟩).2.1 ⟨[1, 1]⟩ 0
      rfl rfl rfl rfl (by decide) (by decide),
    (stage_position_validates ⟨2, none, some ⟨[1, 1]⟩⟩ _ ⟨[2]⟩).1 (by decide)⟩

/-- Claim C2: the GRBL status report
`<Idle|MPos:1.000,3.000,4.000|FS:0,0|WCO:0.000,0.000,0.000>` parses to status
`Idle` with the expected field map, and the position getter computes
`MPos - WCO = (1, 3, 4)` from those fields. -/
theorem grbl_status_parse_and_position :
    get_current_status ["<Idle|MPos:1.000,3.000,4.000|FS:0,0|WCO:0.000,0.000,0.000>"] =
      .ok .IDLE [("MPos", .list ["1.000", "3.000", "4.000"]), ("FS", .list ["0", "0"]),
        ("WCO", .list ["0.000", "0.000", "0.000"])] ∧
    CNCRouter.position [("MPos", FieldValue.list ["1.000", "3.000", "4.000"]),
      ("FS", FieldValue.list ["0", "0"]), ("WCO", FieldValue.list ["0.000", "0.000", "0.000"])] =
      some (Except.ok (Vector.mk [1, 3, 4])) :=
  ⟨by rfl, by with_unfolding_all rfl⟩

/-- Counterexample for C3: after two consecutive mismatched responses the
SMC100 `Link.query` does not surface a `ProtocolError`; it re-sends a third
time and succeeds (`.ok "OK"`), and with exactly the two mismatched responses
available it blocks waiting for a third instead of raising. -/
theorem smc_query_counterexample :
    Link.query (some 1) "TS" ["9XX", "9YY", "1TSOK"] = QueryOutcome.ok "OK" ∧
    Link.query (some 1) "TS" ["9XX", "9YY"] = QueryOutcome.blocked :=
  ⟨by rfl, by rfl⟩

/-- Claim C3 (amended): on a response that does not start with the echoed
`{address}{command}` prefix, `Link.query` catches the `ProtocolError` from
`Link.response` and re-sends the query, and this repeats for every further
mismatched response without bound, so no `ProtocolError` is ever surfaced to
the caller of `query`. -/
theorem smc_query_retries_unbounded (a : Option Nat) (c : String) :
    (∀ (rs : List String) (q : String) (r : Option String),
      Link.query a c rs ≠ .protocolError q r) ∧
    (∀ (r : String) (rest : List String),
      (Link.response a c (some r)).isOk = false →
      Link.query a c (r :: rest) = Link.query a c rest) := by
  constructor
  · intro rs
    induction rs with
    | nil => intro q r; simp [Link.query]
    | cons x rest ih =>
        intro q r
        cases h : Link.response a c (some x) with
        | ok p => simp [Link.query, h]
        | error e => simpa [Link.query, h] using ih q r
  · intro r rest h
    cases hr : Link.response a c (some r) with
    | ok p => rw [hr] at h; simp [Except.isOk, Except.toBool] at h
    | error e => simp [Link.query, hr]

/-- Witness for C3 (amended): a mismatched response (`0XQ` against the echo
`0TP`) makes `query` fall through to the next response. -/
theorem smc_query_retries_unbounded_witness :
    Link.query (some 0) "TP" ("0XQ" :: ["0TP1.5"]) = Link.query (some 0) "TP" ["0TP1.5"] :=
  (smc_query_retries_unbounded (some 0) "TP").2 "0XQ" ["0TP1.5"] (by rfl)

/-- Counterexample for C4: the status code whose first four hex digits are
`0000` and last two are `32` decodes to state `READY_FROM_HOMING` (0x32), not
`MOVING`; on the decoded result `is_moving` is false and `is_ready` is true,
the opposite of the claim. -/
theorem smc_status_code_counterexample :
    get_error_and_state (some "000032") = TSResult.ok ⟨0, State.READY_FROM_HOMING⟩ ∧
    (ErrorAndState.mk 0 State.READY_FROM_HOMING).is_moving = false ∧
    (ErrorAndState.mk 0 State.READY_FROM_HOMING).is_ready = true :=
  ⟨by rfl, by rfl, by rfl⟩

/-- Claim C4 (amended): the 6-hex-digit status code whose first four digits
are `0000` and last two are `28` (the hex digits of `MOVING = 0x28`) decodes
to no fault flags (`Error(0)`, i.e. `NO_ERROR`) and state `MOVING`, and on
the decoded result `is_moving` is true and `is_ready` is false. -/
theorem smc_status_code_moving :
    get_error_and_state (some "000028") = TSResult.ok ⟨0, State.MOVING⟩ ∧
    (ErrorAndState.mk 0 State.MOVING).is_moving = true ∧
    (ErrorAndState.mk 0 State.MOVING).is_ready = false :=
  ⟨by rfl, by rfl, by rfl⟩

/-- Claim C5: an M3-FS response whose leading two digits do not equal the
sent command ID raises a `ProtocolError` naming the command and the raw
response, and a response missing the mandatory trailing carriage return
(whether the stream ends after `>` or yields a different byte) raises a
`ProtocolError`. -/
theorem m3fs_command_validation (cmd : Nat) :
    (∀ (input : List Char) (res : String) (n : Nat),
      M3FS.receive input = .ok res → digitsVal (res.data.take 2) = some n →
      n ≠ cmd → 2 ≤ res.data.length →
      M3FS.command cmd input = .protocolError cmd res) ∧
    (∀ p : List Char, (∀ c ∈ p, c ≠ '>' ∧ c ≠ '\r') →
      M3FS.command cmd ('<' :: p ++ ['>']) = .framingError) ∧
    (∀ (p : List Char) (c : Char), (∀ x ∈ p, x ≠ '>' ∧ x ≠ '\r') → c ≠ '\r' →
      M3FS.command cmd ('<' :: p ++ '>' :: [c]) = .framingError) := by
  refine ⟨?_, ?_, ?_⟩
  · intro input res n hrec hdig hne hlen
    simp [M3FS.command, hrec, hdig, hne, show ¬(res.data.length < 2) by omega]
  · intro p hp
    have h := readPayload_clean p [] hp
    simp only [List.append_nil] at h
    simp [M3FS.command, M3FS.receive, h]
  · intro p c hp hc
    have h := readPayload_clean p [c] hp
    simp [M3FS.command, M3FS.receive, h, hc]

/-- Witness for C5: sending command 8 and receiving `<09 AB>\r` raises a
`ProtocolError` naming command 8 and the response `09 AB`; receiving
`<08 AB>` with no trailing CR raises a `ProtocolError`. -/
theorem m3fs_command_validation_witness :
    M3FS.command 8 "<09 AB>\r".data = .protocolError 8 "09 AB" ∧
    M3FS.command 8 ('<' :: "08 AB".data ++ ['>']) = .framingError :=
  ⟨(m3fs_command_validation 8).1 "<09 AB>\r".data "09 AB" 9 (by rfl) (by rfl)
      (by decide) (by decide),
    (m3fs_command_validation 8).2.1 "08 AB".data (by decide)⟩

/-- Claim C6: a GRBL status query answered by `ALARM:1` followed by a message
line raises the structured `CNCError` carrying that following message and the
`Alarm` status, not a generic `ProtocolError`. -/
theorem grbl_alarm_structured :
    get_current_status ["ALARM:1", "[MSG:Reset to continue]"] =
      .alarm ⟨"[MSG:Reset to continue]", CNCStatus.ALARM⟩ := by
  rfl

/-- Counterexample for C7: `Tic.is_moving` returns `False` even for a device
state whose `MISC_FLAGS` has the homing-active bit (1 << 4) set, i.e. while
the device is actually moving — the result is a constant independent of the
device state, contradicting the claim that every driver's `is_moving` reports
the live device-reported motion status. -/
theorem tic_is_moving_constant :
    Tic.is_moving 16 = false ∧ Tic.is_moving 0 = false :=
  ⟨rfl, rfl⟩

/-- Claim C7 (amended): every driver except Tic computes `is_moving` from a
live device query (GRBL: status in Run/Home; Corvus: bit 0 of the `st` word;
M3-FS: bit 2 of the motor status; SMC100: any axis moving/homing/jogging; PI:
any axis answering other than `"0"`), while `Tic.is_moving` is the constant
`False` because its positioning and homing operations block. -/
theorem is_moving_query_semantics :
    (CNCRouter.is_moving CNCStatus.RUN = true ∧ CNCRouter.is_moving CNCStatus.HOME = true ∧
      CNCRouter.is_moving CNCStatus.IDLE = false) ∧
    (Corvus.is_moving 1 = true ∧ Corvus.is_moving 0 = false) ∧
    (M3FS.is_moving 4 = true ∧ M3FS.is_moving 0 = false) ∧
    (SMC100.is_moving [⟨0, State.MOVING⟩] = true ∧
      SMC100.is_moving [⟨0, State.READY_FROM_MOVING⟩] = false) ∧
    (PI.is_moving ["1"] = true ∧ PI.is_moving ["0"] = false) ∧
    (∀ flags : Nat, Tic.is_moving flags = false) :=
  ⟨⟨by rfl, by rfl, by rfl⟩, ⟨by rfl, by rfl⟩, ⟨by rfl, by rfl⟩, ⟨by rfl, by rfl⟩,
    ⟨by rfl, by rfl⟩, fun _ => rfl⟩

/-- Counterexample for C8: dividing a Vector by a Vector of a different
length raises `TypeError` (`Vector` is not an accepted second operand of
`__truediv__` at all), not a dimension-mismatch error. -/
theorem vector_truediv_counterexample :
    Vector.truediv ⟨[1]⟩ (Operand.vec ⟨[1, 2]⟩) = .error VecError.typeError ∧
    Vector.truediv ⟨[1]⟩ (Operand.vec ⟨[1, 2]⟩) ≠ .error VecError.dimensionMismatch :=
  ⟨rfl, by simp [Vector.truediv]⟩

/-- Claim C8 (amended): for Vector operands of differing lengths, addition,
subtraction and componentwise multiplication raise the dimension-mismatch
error, while division raises `TypeError` (only scalar divisors are
supported, whatever the lengths). -/
theorem vector_ops_length_mismatch (a b : Vector) (h : b.len ≠ a.len) :
    a.add b = .error .dimensionMismatch ∧ a.sub b = .error .dimensionMismatch ∧
    a.mul (.vec b) = .error .dimensionMismatch ∧ a.truediv (.vec b) = .error .typeError := by
  refine ⟨?_, ?_, ?_, rfl⟩ <;> simp [Vector.add, Vector.sub, Vector.mul, h]

/-- Witness for C8 (amended): a 1-component and a 0-component Vector. -/
theorem vector_ops_length_mismatch_witness :
    Vector.add ⟨[1]⟩ ⟨[]⟩ = .error .dimensionMismatch :=
  (vector_ops_length_mismatch ⟨[1]⟩ ⟨[]⟩ (by decide)).1

/-- Claim C9: for Vectors of equal length, `(a + b) - b` recovers `a`
exactly (components are exact rationals in this model). -/
theorem vector_add_sub_roundtrip (a b : Vector) (h : a.len = b.len) :
    ∃ c, a.add b = .ok c ∧ c.sub b = .ok a := by
  have hl : a.data.length = b.data.length := by simpa [Vector.len] using h
  refine ⟨⟨List.zipWith (fun x y => x + y) a.data b.data⟩, ?_, ?_⟩
  · simp [Vector.add, Vector.len, hl]
  · simp [Vector.sub, Vector.len, List.length_zipWith, hl, zipWith_add_sub _ _ hl]

/-- Witness for C9: `((1,2) + (3,5)) - (3,5) = (1,2)`. -/
theorem vector_add_sub_roundtrip_witness :
    ∃ c, Vector.add ⟨[1, 2]⟩ ⟨[3, 5]⟩ = .ok c ∧ Vector.sub c ⟨[3, 5]⟩ = .ok ⟨[1, 2]⟩ :=
  vector_add_sub_roundtrip ⟨[1, 2]⟩ ⟨[3, 5]⟩ rfl

/-- Claim C10: the base-class `Stage.home` is exactly `move_to` of the
all-zero vector of dimension `num_axis`; consequently, when the configured
minimums exclude the zero vector (some minimum is positive), `home` raises
the out-of-range validation error and emits no motion command. -/
theorem stage_home_moves_to_zero (cfg : StageCfg) (encode : Vector → List String) :
    Stage.home cfg encode = move_to cfg encode (Vector.ofDim cfg.num_axis) ∧
    (∀ (m : Vector) (i : Nat), cfg.minimums = some m → m.len = cfg.num_axis →
      (cfg.maximums.getD (Vector.ofDim cfg.num_axis)).len = cfg.num_axis →
      i < cfg.num_axis → 0 < m.data.getD i 0 →
      ∃ j, Stage.home cfg encode = .error (.outOfRange j)) := by
  constructor
  · rfl
  · intro m i hminsome hmlen hmaxlen hi hviol
    have hvlen : (Vector.ofDim cfg.num_axis).len = cfg.num_axis := by
      simp [Vector.ofDim, Vector.len]
    have hmin2 : (cfg.minimums.getD (Vector.ofDim cfg.num_axis)).len =
        (Vector.ofDim cfg.num_axis).len := by
      rw [hminsome, Option.getD_some]
      exact hmlen.trans hvlen.symm
    have hmax2 : (cfg.maximums.getD (Vector.ofDim cfg.num_axis)).len =
        (Vector.ofDim cfg.num_axis).len := hmaxlen.trans hvlen.symm
    have hi2 : i < (Vector.ofDim cfg.num_axis).len := by rw [hvlen]; exact hi
    have hviol2 : (Vector.ofDim cfg.num_axis).data.getD i 0 <
        (cfg.minimums.getD (Vector.ofDim cfg.num_axis)).data.getD i 0 := by
      rw [hminsome, Option.getD_some]
      simpa [Vector.ofDim, replicate_zero_getD] using hviol
    obtain ⟨j, hj⟩ := check_range_violation cfg (Vector.ofDim cfg.num_axis) hmin2 hmax2
      (Or.inl (by rw [hminsome]; rfl)) i hi2 (Or.inl hviol2)
    refine ⟨j, ?_⟩
    show stageSetPosition cfg encode (Vector.ofDim cfg.num_axis) = _
    exact stageSetPosition_range_error cfg encode _ _
      (check_dimension_ok cfg _ hvlen.symm) hj

/-- Witness for C10: with `num_axis = 1` and minimum `(1)`, `home` tries to
move to `(0)` and is rejected as out of range before emitting a command. -/
theorem stage_home_moves_to_zero_witness :
    ∃ j, Stage.home ⟨1, some ⟨[1]⟩, none⟩ (fun _ => ["0PA0.00000"]) =
      .error (.outOfRange j) :=
  (stage_home_moves_to_zero ⟨1, some ⟨[1]⟩, none⟩ _).2 ⟨[1]⟩ 0 rfl rfl rfl
    (by decide) (by decide)

end PyStages
